import Mathlib

/-!
Shallow embedding of the book-crawler core (src/src/crawler and
src/src/utilities) and proofs about it.

Modelling conventions:
- Python runtime values stored in record dicts are modelled by `Value`
  (None / str / int); Python dicts by insertion-ordered association lists
  (`FieldMap`) whose lookup ignores order.
- `datetime` instants are integers (seconds); `timedelta(hours=24)` is 86400.
- The call `hashlib.md5(s).hexdigest()` is modelled as a parameter
  `md5hex : String → String`: the development only relies on the digest of
  equal strings being equal, which holds for every function.
- The library conversion `Decimal(str(x))`, which may raise, is modelled as a
  parameter `pyDecimalStr : Value → Except String Value`.
- Exceptions are `Except`; where Python mutates global state before raising,
  the error value carries the store at the moment of the raise.
-/

namespace BookCrawler

/-- A Python runtime value as stored in the crawler's record dicts:
`None`, a string, or an integer. -/
inductive Value where
  | null
  | vStr (s : String)
  | vInt (n : Int)
  deriving DecidableEq

/-- A Python dict (string keys), as an insertion-ordered association list. -/
def FieldMap := List (String × Value)

/-- `d[k]`-style lookup: the binding for `k`, if present. -/
def FieldMap.get? (m : FieldMap) (k : String) : Option Value :=
  match m.find? (fun p => decide (p.1 = k)) with
  | some p => some p.2
  | none => none

/-- Python `d.get(k, default)`. -/
def FieldMap.getD (m : FieldMap) (k : String) (d : Value) : Value :=
  match m.get? k with
  | some v => v
  | none => d

/-- Python `d.get(k)`: `None` when the key is absent (conflating a stored
`None` with a missing key, exactly as `dict.get` does). -/
def FieldMap.getV (m : FieldMap) (k : String) : Value :=
  m.getD k .null

/-- `BOOK_FIELDS_TO_TRACK` from src/src/utilities/constants.py. -/
def BOOK_FIELDS_TO_TRACK : List String :=
  ["currency", "price_with_tax", "price_without_tax",
   "availability", "no_of_reviews", "no_of_ratings"]

/-- One hex digit. -/
def hexDigit (n : Nat) : Char :=
  if n < 10 then Char.ofNat (48 + n) else Char.ofNat (87 + n)

/-- Four lowercase hex digits, as in a JSON `\uXXXX` escape. -/
def hex4 (n : Nat) : String :=
  String.mk [hexDigit (n / 4096 % 16), hexDigit (n / 256 % 16),
             hexDigit (n / 16 % 16), hexDigit (n % 16)]

/-- `json.dumps` escaping of one character (default `ensure_ascii=True`:
quote, backslash and control characters escaped, non-ASCII as `\uXXXX`,
astral characters as surrogate pairs). -/
def jsonEscapeChar (c : Char) : String :=
  if c = '"' then "\\\""
  else if c = '\\' then "\\\\"
  else if c = '\n' then "\\n"
  else if c = '\t' then "\\t"
  else if c = '\r' then "\\r"
  else if c = Char.ofNat 8 then "\\b"
  else if c = Char.ofNat 12 then "\\f"
  else if c.toNat < 32 then "\\u" ++ hex4 c.toNat
  else if c.toNat < 127 then String.singleton c
  else if c.toNat ≤ 65535 then "\\u" ++ hex4 c.toNat
  else
    let n := c.toNat - 65536
    "\\u" ++ hex4 (55296 + n / 1024) ++ "\\u" ++ hex4 (56320 + n % 1024)

/-- A JSON string literal for `s`. -/
def jsonString (s : String) : String :=
  "\"" ++ String.join (s.data.map jsonEscapeChar) ++ "\""

/-- Serialization of one value as `json.dumps` renders it
(`default=str` never fires for these value shapes). -/
def serializeValue : Value → String
  | .null => "null"
  | .vStr s => jsonString s
  | .vInt n => toString n

/-- Insert a pair into a key-sorted list of pairs (code-point order on
keys, as `sort_keys=True` orders them). -/
def insertPairSorted (p : String × Value) :
    List (String × Value) → List (String × Value)
  | [] => [p]
  | q :: qs =>
    if p.1 < q.1 then p :: q :: qs else q :: insertPairSorted p qs

/-- Sort pairs by key, as `json.dumps(..., sort_keys=True)` does. -/
def sortPairsByKey (l : List (String × Value)) : List (String × Value) :=
  l.foldr insertPairSorted []

/-- `json.dumps(d, sort_keys=True, default=str)` on a dict of values
(default separators `", "` and `": "`). -/
def jsonDumpsSorted (l : List (String × Value)) : String :=
  "\x7b" ++ String.intercalate ", "
    ((sortPairsByKey l).map (fun p => jsonString p.1 ++ ": " ++ serializeValue p.2))
  ++ "\x7d"

/-- The dict comprehension in `generate_hash`: the projection of `data`
onto exactly the tracked fields (missing keys become `None`). -/
def trackedProjection (data : FieldMap) : List (String × Value) :=
  BOOK_FIELDS_TO_TRACK.map (fun k => (k, data.getV k))

/-- `generate_hash` from src/src/utilities/utils.py: the MD5 hex digest of
the sorted-key JSON dump of the tracked-field projection.  `md5hex` stands
for `hashlib.md5(...).hexdigest()`. -/
def generate_hash (md5hex : String → String) (data : FieldMap) : String :=
  md5hex (jsonDumpsSorted (trackedProjection data))

/-- `detect_changes` from src/src/utilities/utils.py: walk the tracked-field
allowlist in order and record `{old, new}` for every field whose two
`get`-values differ. -/
def detect_changes (old_book new_book : FieldMap) :
    List (String × Value × Value) :=
  BOOK_FIELDS_TO_TRACK.filterMap (fun field =>
    let old_value := old_book.getV field
    let new_value := new_book.getV field
    if old_value ≠ new_value then some (field, old_value, new_value) else none)

/-! ### Data model (src/src/crawler/models.py) and persistence store -/

/-- `BookCategory` document: deduplicated by name. -/
structure BookCategory where
  name : Value
  deriving DecidableEq

/-- Embedded `Metadata` of a book. -/
structure Metadata where
  scraped_at : Int
  status : String
  source_url : Value
  content_hash : String
  deriving DecidableEq

/-- `Book` document.  Scalar fields hold the raw stored values; `category`
holds the linked category's name. -/
structure Book where
  title : Value
  name : Value
  description : Value
  category : Value
  currency : Value
  price_with_tax : Value
  price_without_tax : Value
  availability : Value
  no_of_reviews : Value
  cover_image_url : Value
  no_of_ratings : Value
  raw_html : Value
  metadata : Metadata
  created_at : Int
  updated_at : Int
  deriving DecidableEq

/-- `ChangeLog` document (the link to the book is modelled by its title,
the natural key). -/
structure ChangeLog where
  book_title : Value
  field_changed : String
  old_value : Option String
  new_value : Option String
  deriving DecidableEq

/-- `CrawlStatus` enum. -/
inductive CrawlStatus where
  | running
  | completed
  | failed
  deriving DecidableEq

/-- `CrawlSession` document.  `session_id` is an opaque unique id (the
`uuid4` default is modelled by a fresh natural number). -/
structure CrawlSession where
  session_id : Nat
  status : CrawlStatus
  start_time : Int
  end_time : Option Int
  last_completed_page : Int
  target_pages : Option Int
  total_books_processed : Int
  books_added : Int
  books_updated : Int
  error_message : Option String
  created_at : Int
  updated_at : Int
  deriving DecidableEq

/-- The document store backing Beanie: one collection per document type. -/
structure DB where
  categories : List BookCategory
  books : List Book
  changeLogs : List ChangeLog
  sessions : List CrawlSession
  deriving DecidableEq

/-- An empty store. -/
def dbEmpty : DB := ⟨[], [], [], []⟩

/-- `session.save()`: replace the stored session with the same id, or
insert it when absent. -/
def DB.saveSession (db : DB) (s : CrawlSession) : DB :=
  if db.sessions.any (fun t => decide (t.session_id = s.session_id)) then
    { db with sessions :=
        db.sessions.map (fun t => if t.session_id = s.session_id then s else t) }
  else
    { db with sessions := db.sessions ++ [s] }

/-! ### Session manager (src/src/crawler/manager.py) -/

/-- Accumulator step for the `sort(-start_time).first_or_none()` query:
keep the session started latest, preferring the earlier-listed one on
ties. -/
def pickLater (acc : Option CrawlSession) (s : CrawlSession) :
    Option CrawlSession :=
  match acc with
  | none => some s
  | some t => if t.start_time < s.start_time then some s else acc

/-- `CrawlSession.find(status == FAILED).sort(-start_time).first_or_none()`:
the most recently started Failed session, if any. -/
def latestFailed (l : List CrawlSession) : Option CrawlSession :=
  (l.filter (fun s => decide (s.status = .failed))).foldl pickLater none

/-- `SimpleCrawlManager`: holds the optional active session. -/
structure SimpleCrawlManager where
  session : Option CrawlSession
  deriving DecidableEq

/-- Python truthiness of the manager's optional `error` string argument. -/
def truthyStr : Option String → Bool
  | none => false
  | some s => !s.isEmpty

/-- `SimpleCrawlManager.start_session`: create a fresh Running session
with `last_completed_page = 0` and insert it. -/
def start_session (_mgr : SimpleCrawlManager) (db : DB) (now : Int)
    (limit : Option Int) : SimpleCrawlManager × DB :=
  let s : CrawlSession :=
    { session_id := db.sessions.length
      status := .running
      start_time := now
      end_time := none
      last_completed_page := 0
      target_pages := limit
      total_books_processed := 0
      books_added := 0
      books_updated := 0
      error_message := none
      created_at := now
      updated_at := now }
  (⟨some s⟩, { db with sessions := db.sessions ++ [s] })

/-- `SimpleCrawlManager.resume_latest_failed_session`: revive the most
recent Failed session unless absent or started more than 24 hours
(86400 seconds) before `now`. -/
def resume_latest_failed_session (mgr : SimpleCrawlManager) (db : DB)
    (now : Int) : Bool × SimpleCrawlManager × DB :=
  match latestFailed db.sessions with
  | none => (false, mgr, db)
  | some failed_session =>
    if failed_session.start_time < now - 86400 then (false, mgr, db)
    else
      let s' := { failed_session with
        status := .running
        updated_at := now
        error_message := none }
      (true, ⟨some s'⟩, db.saveSession s')

/-- `SimpleCrawlManager.update_progress`: set `last_completed_page` to the
given page, add to the cumulative counters, persist; no-op without an
active session. -/
def update_progress (mgr : SimpleCrawlManager) (db : DB)
    (completed_page books_on_page books_added books_updated now : Int) :
    SimpleCrawlManager × DB :=
  match mgr.session with
  | none => (mgr, db)
  | some s =>
    let s' := { s with
      last_completed_page := completed_page
      total_books_processed := s.total_books_processed + books_on_page
      books_added := s.books_added + books_added
      books_updated := s.books_updated + books_updated
      updated_at := now }
    (⟨some s'⟩, db.saveSession s')

/-- `SimpleCrawlManager.complete_session`: mark the active session
Completed or Failed.  Returns silently without an active session; raises
`AssertionError` on `success` together with a truthy `error`. -/
def complete_session (mgr : SimpleCrawlManager) (db : DB) (success : Bool)
    (error : Option String) (now : Int) :
    Except String (SimpleCrawlManager × DB) :=
  match mgr.session with
  | none => .ok (mgr, db)
  | some s =>
    if success && truthyStr error then
      .error "Cannot have error message on successful completion"
    else
      let s' := { s with
        end_time := some now
        status := if success then .completed else .failed
        updated_at := now
        error_message := if truthyStr error then error else s.error_message }
      .ok (⟨some s'⟩, db.saveSession s')

/-- `SimpleCrawlManager.get_resume_page`: `last_completed_page + 1`, or 1
without an active session. -/
def get_resume_page (mgr : SimpleCrawlManager) : Int :=
  match mgr.session with
  | some s => s.last_completed_page + 1
  | none => 1

/-! ### Record reconciler (src/src/crawler/main.py `save_or_update_book`) -/

/-- Library collaborators used by the reconciler: `hashlib.md5(...).hexdigest()`
and the possibly-failing conversion `Decimal(str(x))`. -/
structure Runtime where
  md5hex : String → String
  pyDecimalStr : Value → Except String Value

/-- Python `str(value)`. -/
def pyStr : Value → String
  | .null => "None"
  | .vStr s => s
  | .vInt n => toString n

/-- `str(x) if x is not None else None`, as in `save_changes_log`. -/
def strOrNone : Value → Option String
  | .null => none
  | v => some (pyStr v)

/-- The `{"added": a, "updated": u}` stats dict of the main reconciler. -/
structure StatsMU where
  added : Int
  updated : Int
  deriving DecidableEq

/-- `BookCategory.find_one(BookCategory.name == name)`. -/
def DB.findCategory (db : DB) (name : Value) : Option BookCategory :=
  db.categories.find? (fun c => decide (c.name = name))

/-- `Book.find_one(Book.title == title)`. -/
def DB.findBook (db : DB) (title : Value) : Option Book :=
  db.books.find? (fun b => decide (b.title = title))

/-- `book.save()`: replace the stored book with the same natural key
(`title`, unique). -/
def DB.saveBook (db : DB) (b : Book) : DB :=
  { db with books := db.books.map (fun t => if t.title = b.title then b else t) }

/-- `setattr(existing_book, field, value)` for the allowlisted fields
(the only field names `detect_changes` can produce). -/
def Book.setField (b : Book) (field : String) (v : Value) : Book :=
  if field = "currency" then { b with currency := v }
  else if field = "price_with_tax" then { b with price_with_tax := v }
  else if field = "price_without_tax" then { b with price_without_tax := v }
  else if field = "availability" then { b with availability := v }
  else if field = "no_of_reviews" then { b with no_of_reviews := v }
  else if field = "no_of_ratings" then { b with no_of_ratings := v }
  else b

/-- `existing_book.model_dump()`: the book's fields as a dict. -/
def Book.model_dump (b : Book) : FieldMap :=
  [("title", b.title), ("name", b.name), ("description", b.description),
   ("category", b.category), ("currency", b.currency),
   ("price_with_tax", b.price_with_tax),
   ("price_without_tax", b.price_without_tax),
   ("availability", b.availability), ("no_of_reviews", b.no_of_reviews),
   ("cover_image_url", b.cover_image_url), ("no_of_ratings", b.no_of_ratings),
   ("raw_html", b.raw_html)]

/-- `save_changes_log` from src/src/crawler/main.py: insert one ChangeLog
per changed field, in change order, stringifying non-None values. -/
def save_changes_log (db : DB) (existing_book : Book)
    (changes : List (String × Value × Value)) : DB :=
  changes.foldl (fun d c =>
    { d with changeLogs := d.changeLogs ++
        [{ book_title := existing_book.title, field_changed := c.1,
           old_value := strOrNone c.2.1, new_value := strOrNone c.2.2 }] }) db

/-- The `Book(...)` constructor call in the insert branch of
`save_or_update_book` (src/src/crawler/main.py lines 60-80), given the
already-converted Decimal prices. -/
def newBookRecord (rt : Runtime) (now : Int) (book_data : FieldMap)
    (category_name pw pwo : Value) : Book :=
  { title := book_data.getD "title" (.vStr "")
    name := book_data.getD "name" (.vStr "")
    description := book_data.getD "description" (.vStr "")
    category := category_name
    currency := book_data.getV "currency"
    price_with_tax := pw
    price_without_tax := pwo
    availability := book_data.getV "availability"
    no_of_reviews := book_data.getD "no_of_reviews" (.vInt 0)
    cover_image_url := book_data.getV "image_url"
    no_of_ratings := book_data.getD "no_of_ratings" (.vInt 0)
    raw_html := book_data.getD "raw_html" (.vStr "")
    metadata :=
      { scraped_at := now, status := "scraped",
        source_url := book_data.getD "source_url" (.vStr ""),
        content_hash := generate_hash rt.md5hex book_data }
    created_at := now
    updated_at := now }

/-- `save_or_update_book` from src/src/crawler/main.py.  Raised exceptions
(`book_data["category"]` KeyError, `Decimal(str(...))` failures) are
`.error` carrying the store as already mutated at the raise point. -/
def save_or_update_book (rt : Runtime) (now : Int) (db : DB)
    (book_data : FieldMap) : Except (String × DB) (DB × StatsMU) :=
  match book_data.get? "category" with
  | none => .error ("KeyError: category", db)
  | some category_name =>
    let db1 := match db.findCategory category_name with
      | some _ => db
      | none =>
        { db with categories := db.categories ++ [BookCategory.mk category_name] }
    let title := book_data.getD "title" (.vStr "")
    let current_hash := generate_hash rt.md5hex book_data
    match db1.findBook title with
    | none =>
      match rt.pyDecimalStr (book_data.getD "price_with_tax" (.vInt 0)) with
      | .error e => .error (e, db1)
      | .ok pw =>
        match rt.pyDecimalStr (book_data.getD "price_without_tax" (.vInt 0)) with
        | .error e => .error (e, db1)
        | .ok pwo =>
          let book := newBookRecord rt now book_data category_name pw pwo
          .ok ({ db1 with books := db1.books ++ [book] }, ⟨1, 0⟩)
    | some existing_book =>
      let existing_data := existing_book.model_dump
      if existing_book.metadata.content_hash = current_hash then
        .ok (db1, ⟨0, 0⟩)
      else
        let changes := detect_changes existing_data book_data
        if changes = [] then
          .ok (db1, ⟨0, 0⟩)
        else
          let db2 := save_changes_log db1 existing_book changes
          let updated0 := changes.foldl
            (fun b c => b.setField c.1 c.2.2) existing_book
          let updated1 := { updated0 with
            raw_html := book_data.getD "raw_html" (.vStr "") }
          let updated2 := { updated1 with
            metadata := { updated1.metadata with
                           content_hash := current_hash, scraped_at := now }
            updated_at := now }
          .ok (db2.saveBook updated2, ⟨0, 1⟩)

/-! ### Record reconciler variant with error boundary
(src/src/crawler/utils.py) -/

/-- The `{"added": a, "updated": u, "errors": e}` stats dict of the
crawler/utils.py reconciler. -/
structure StatsU where
  added : Int
  updated : Int
  errors : Int
  deriving DecidableEq

/-- The persistence and lookup operations awaited by the crawler/utils.py
reconciler; each may fail with a persistence error. -/
structure FalliblePrims where
  findCategory : DB → Value → Except String (Option BookCategory)
  insertCategory : DB → BookCategory → Except String DB
  findBook : DB → Value → Except String (Option Book)
  insertBook : DB → Book → Except String DB
  saveBook : DB → Book → Except String DB
  insertChangeLog : DB → ChangeLog → Except String DB

/-- Python truthiness of a record value (`if not title: ...`). -/
def valueFalsy : Value → Bool
  | .null => true
  | .vStr s => s.isEmpty
  | .vInt n => decide (n = 0)

/-- Python `str.strip()`: drop leading and trailing whitespace. -/
def pyStrip (s : String) : String :=
  String.mk (((s.data.dropWhile Char.isWhitespace).reverse.dropWhile
    Char.isWhitespace).reverse)

/-- The name normalization at the head of `get_or_create_category`:
falsy or whitespace-only names become "Unknown"; calling `.strip()` on a
truthy non-string raises. -/
def normalizeCategoryName : Value → Except String Value
  | .null => .ok (.vStr "Unknown")
  | .vStr s => .ok (if pyStrip s = "" then .vStr "Unknown" else .vStr s)
  | .vInt n =>
    if n = 0 then .ok (.vStr "Unknown")
    else .error "AttributeError: strip"

/-- `get_or_create_category` from src/src/crawler/utils.py. -/
def get_or_create_category_u (prims : FalliblePrims) (db : DB)
    (category_name : Value) : Except (String × DB) (BookCategory × DB) :=
  match normalizeCategoryName category_name with
  | .error e => .error (e, db)
  | .ok name =>
    match prims.findCategory db name with
    | .error e => .error (e, db)
    | .ok (some category) => .ok (category, db)
    | .ok none =>
      let category := BookCategory.mk name
      match prims.insertCategory db category with
      | .error e => .error (e, db)
      | .ok db1 => .ok (category, db1)

/-- `create_new_book` from src/src/crawler/utils.py (its `crawled_at`
timestamp is carried by the model's `scraped_at` slot). -/
def create_new_book_u (prims : FalliblePrims) (rt : Runtime) (now : Int)
    (db : DB) (book_data : FieldMap) (category : BookCategory) :
    Except (String × DB) (Book × DB) :=
  match rt.pyDecimalStr (book_data.getD "price_with_tax" (.vInt 0)) with
  | .error e => .error (e, db)
  | .ok pw =>
    match rt.pyDecimalStr (book_data.getD "price_without_tax" (.vInt 0)) with
    | .error e => .error (e, db)
    | .ok pwo =>
      let book : Book :=
        { title := book_data.getD "title" (.vStr "")
          name := book_data.getD "name" (.vStr "Unknown")
          description := book_data.getV "description"
          category := category.name
          currency := book_data.getD "currency" (.vStr "£")
          price_with_tax := pw
          price_without_tax := pwo
          availability := book_data.getD "availability" (.vStr "Unknown")
          no_of_reviews := book_data.getD "no_of_reviews" (.vInt 0)
          cover_image_url := book_data.getV "image_url"
          no_of_ratings := book_data.getD "no_of_ratings" (.vInt 0)
          raw_html := book_data.getV "raw_html"
          metadata :=
            { scraped_at := now, status := "crawled",
              source_url := book_data.getD "source_url" (.vStr ""),
              content_hash := generate_hash rt.md5hex book_data }
          created_at := now
          updated_at := now }
      match prims.insertBook db book with
      | .error e => .error (e, db)
      | .ok db1 => .ok (book, db1)

/-- `save_changes_log` from src/src/crawler/utils.py: each insert failure
is caught inside the loop and skipped. -/
def save_changes_log_u (prims : FalliblePrims) (db : DB)
    (existing_book : Book) (changes : List (String × Value × Value)) : DB :=
  changes.foldl (fun d c =>
    match prims.insertChangeLog d
        { book_title := existing_book.title, field_changed := c.1,
          old_value := strOrNone c.2.1, new_value := strOrNone c.2.2 } with
    | .ok d1 => d1
    | .error _ => d) db

/-- `update_existing_book` from src/src/crawler/utils.py. -/
def update_existing_book_u (prims : FalliblePrims) (rt : Runtime) (now : Int)
    (db : DB) (existing_book : Book) (book_data : FieldMap)
    (changes : List (String × Value × Value)) :
    Except (String × DB) (Book × DB) :=
  let db1 := save_changes_log_u prims db existing_book changes
  let b1 := changes.foldl (fun b c => b.setField c.1 c.2.2) existing_book
  let b2 := { b1 with raw_html := book_data.getV "raw_html" }
  let b3 := { b2 with
    metadata := { b2.metadata with
                   content_hash := generate_hash rt.md5hex book_data,
                   scraped_at := now }
    updated_at := now }
  match prims.saveBook db1 b3 with
  | .error e => .error (e, db1)
  | .ok db2 => .ok (b3, db2)

/-- The `try` block of `save_or_update_book` in src/src/crawler/utils.py:
the whole reconciliation, with any persistence or lookup error surfacing
as `.error` (carrying the store at the raise point). -/
def save_or_update_book_u_body (prims : FalliblePrims) (rt : Runtime)
    (now : Int) (db : DB) (book_data : FieldMap) :
    Except (String × DB) (DB × StatsU) :=
  match get_or_create_category_u prims db
      (book_data.getD "category" (.vStr "Unknown")) with
  | .error e => .error e
  | .ok (category, db1) =>
    let title := book_data.getD "title" (.vStr "")
    if valueFalsy title then
      .ok (db1, ⟨0, 0, 1⟩)
    else
      match prims.findBook db1 title with
      | .error e => .error (e, db1)
      | .ok none =>
        match create_new_book_u prims rt now db1 book_data category with
        | .error e => .error e
        | .ok (_, db2) => .ok (db2, ⟨1, 0, 0⟩)
      | .ok (some existing_book) =>
        let existing_data := existing_book.model_dump
        let current_hash := generate_hash rt.md5hex book_data
        if existing_book.metadata.content_hash = current_hash then
          .ok (db1, ⟨0, 0, 0⟩)
        else
          let changes := detect_changes existing_data book_data
          if changes = [] then
            .ok (db1, ⟨0, 0, 0⟩)
          else
            match update_existing_book_u prims rt now db1 existing_book
                book_data changes with
            | .error e => .error e
            | .ok (_, db2) => .ok (db2, ⟨0, 1, 0⟩)

/-- `save_or_update_book` from src/src/crawler/utils.py: the body wrapped
in the `try/except` boundary that converts any raised error into
`errors=1`. -/
def save_or_update_book_u (prims : FalliblePrims) (rt : Runtime) (now : Int)
    (db : DB) (book_data : FieldMap) : DB × StatsU :=
  match save_or_update_book_u_body prims rt now db book_data with
  | .ok r => r
  | .error (_, dbe) => (dbe, ⟨0, 0, 1⟩)

/-! ### Crawl orchestrator (src/src/crawler/main.py `crawl_page` and
`crawl_all`) -/

/-- An exception escaping a fetch/parse step, as classified by the
orchestrator's handler: an `httpx.HTTPStatusError` with status 404, or
anything else (message attached). -/
inductive CrawlErr where
  | notFound
  | err (msg : String)
  deriving DecidableEq

/-- The collaborator functions the orchestrator drives: the retrying
fetcher and the two black-box HTML extractors. -/
structure CrawlEnv where
  fetch_html : String → Except CrawlErr String
  parse_book_list : String → List String
  parse_book_details : String → String → Except CrawlErr FieldMap

/-- `BASE_PAGE_URL.format(page)` from src/src/utilities/constants.py. -/
def base_page_url (page : Int) : String :=
  "https://books.toscrape.com/catalogue/page-" ++ toString page ++ ".html"

/-- One iteration of `crawl_page`'s per-book loop body: fetch, parse and
reconcile a single book; any exception is caught and the book skipped
(`none`), leaving the store as mutated at the raise point. -/
def processOneBook (env : CrawlEnv) (rt : Runtime) (now : Int) (db : DB)
    (book_url : String) : DB × Option StatsMU :=
  match env.fetch_html book_url with
  | .error _ => (db, none)
  | .ok book_html =>
    match env.parse_book_details book_html book_url with
    | .error _ => (db, none)
    | .ok book_data =>
      match save_or_update_book rt now db book_data with
      | .error (_, db1) => (db1, none)
      | .ok (db1, st) => (db1, some st)

/-- The aggregate state of `crawl_page`'s book loop:
store, books_processed, total_added, total_updated. -/
def bookLoopStep (env : CrawlEnv) (rt : Runtime) (now : Int)
    (acc : DB × Int × Int × Int) (book_url : String) : DB × Int × Int × Int :=
  match processOneBook env rt now acc.1 book_url with
  | (db1, none) => (db1, acc.2.1, acc.2.2.1, acc.2.2.2)
  | (db1, some st) =>
    (db1, acc.2.1 + 1, acc.2.2.1 + st.added, acc.2.2.2 + st.updated)

/-- The result dict returned by `crawl_page`. -/
structure PageResult where
  page : Int
  books_processed : Int
  books_added : Int
  books_updated : Int
  status : String
  deriving DecidableEq

/-- `crawl_page` from src/src/crawler/main.py: fetch the list page
(failures propagate), extract book links, process each book with per-book
error absorption, then record progress. -/
def crawl_page (env : CrawlEnv) (rt : Runtime) (now : Int)
    (mgr : SimpleCrawlManager) (db : DB) (page : Int) :
    Except CrawlErr (SimpleCrawlManager × DB × PageResult) :=
  match env.fetch_html (base_page_url page) with
  | .error e => .error e
  | .ok html =>
    let book_urls := env.parse_book_list html
    let acc := book_urls.foldl (bookLoopStep env rt now) (db, 0, 0, 0)
    let st := update_progress mgr acc.1 page acc.2.1 acc.2.2.1 acc.2.2.2 now
    .ok (st.1, st.2, ⟨page, acc.2.1, acc.2.2.1, acc.2.2.2, "success"⟩)

/-- The `while` condition of `crawl_all`: `limit is None or page <= limit`. -/
def loopGuard (limit : Option Int) (page : Int) : Bool :=
  match limit with
  | none => true
  | some l => decide (page ≤ l)

/-- How one run of the page loop ends: the `while` exits (condition false
or 404 `break`), an error is re-raised after failing the session, or the
step budget used to model the unbounded `while` runs out. -/
inductive LoopExit where
  | exited (mgr : SimpleCrawlManager) (db : DB) (page : Int)
  | raised (msg : String) (mgr : SimpleCrawlManager) (db : DB)
  | outOfFuel (mgr : SimpleCrawlManager) (db : DB) (page : Int)
  deriving DecidableEq

/-- The page loop of `crawl_all` (src/src/crawler/main.py lines 189-200):
each iteration crawls one page; a 404 breaks cleanly; any other error
completes the session as failed and re-raises. -/
def crawlLoop (env : CrawlEnv) (rt : Runtime) (now : Int)
    (limit : Option Int) (mgr : SimpleCrawlManager) (db : DB) (page : Int) :
    Nat → LoopExit
  | 0 =>
    if loopGuard limit page then .outOfFuel mgr db page
    else .exited mgr db page
  | fuel + 1 =>
    if loopGuard limit page then
      match crawl_page env rt now mgr db page with
      | .ok (mgr1, db1, _) => crawlLoop env rt now limit mgr1 db1 (page + 1) fuel
      | .error .notFound => .exited mgr db page
      | .error (.err m) =>
        match complete_session mgr db false (some m) now with
        | .ok (mgr1, db1) => .raised m mgr1 db1
        | .error m2 => .raised m2 mgr db
    else .exited mgr db page

/-- The per-run summary dict returned by `crawl_all`. -/
structure RunSummary where
  session_id : Nat
  status : String
  pages_processed : Int
  total_books : Int
  books_added : Int
  books_updated : Int
  resumed : Bool
  deriving DecidableEq

/-- The observable outcome of a `crawl_all` invocation. -/
inductive RunResult where
  | ok (mgr : SimpleCrawlManager) (db : DB) (summary : RunSummary)
  | raised (msg : String) (mgr : SimpleCrawlManager) (db : DB)
  | outOfFuel (mgr : SimpleCrawlManager) (db : DB) (page : Int)
  deriving DecidableEq

/-- `crawl_all` from src/src/crawler/main.py: optionally resume, else start
a fresh session, run the page loop from the resume page, then complete the
session successfully and assemble the summary.  `fuel` bounds the number of
loop iterations modelled. -/
def crawl_all (env : CrawlEnv) (rt : Runtime) (limit : Option Int)
    (auto_resume : Bool) (now : Int) (db : DB) (fuel : Nat) : RunResult :=
  let mgr0 : SimpleCrawlManager := ⟨none⟩
  let r := if auto_resume then resume_latest_failed_session mgr0 db now
           else (false, mgr0, db)
  let resumed := r.1
  let st := if resumed then (r.2.1, r.2.2) else start_session r.2.1 r.2.2 now limit
  let start_page := get_resume_page st.1
  match crawlLoop env rt now limit st.1 st.2 start_page fuel with
  | .raised m mgr1 db1 => .raised m mgr1 db1
  | .outOfFuel mgr1 db1 p => .outOfFuel mgr1 db1 p
  | .exited mgr1 db1 page =>
    match mgr1.session with
    | none => .raised "AttributeError" mgr1 db1
    | some _ =>
      match complete_session mgr1 db1 true none now with
      | .error m => .raised m mgr1 db1
      | .ok (mgr2, db2) =>
        match mgr2.session with
        | none => .raised "AttributeError" mgr2 db2
        | some s =>
          .ok mgr2 db2
            ⟨s.session_id, "completed", page - start_page,
             s.total_books_processed, s.books_added, s.books_updated, resumed⟩

/-- The status of the manager's session at the end of a run. -/
def RunResult.sessionStatus : RunResult → Option CrawlStatus
  | .ok mgr _ _ => mgr.session.map (fun s => s.status)
  | .raised _ mgr _ => mgr.session.map (fun s => s.status)
  | .outOfFuel mgr _ _ => mgr.session.map (fun s => s.status)

/-- The session's `last_completed_page` at the end of a run. -/
def RunResult.lastCompletedPage : RunResult → Option Int
  | .ok mgr _ _ => mgr.session.map (fun s => s.last_completed_page)
  | .raised _ mgr _ => mgr.session.map (fun s => s.last_completed_page)
  | .outOfFuel mgr _ _ => mgr.session.map (fun s => s.last_completed_page)

/-- Whether the run re-raised an exception to the caller. -/
def RunResult.isRaised : RunResult → Bool
  | .raised _ _ _ => true
  | _ => false

/-- The `pages_processed` entry of the summary, for completed runs. -/
def RunResult.pagesProcessed : RunResult → Option Int
  | .ok _ _ summary => some summary.pages_processed
  | _ => none

/-- Crawl environment exercising the circuit-breaker scenario of the spec:
list-page fetches for pages 1 and 2 raise non-404 errors, page 3 succeeds
(with no book links); detail pages are irrelevant. -/
def envTwoErrorsThenSuccess : CrawlEnv :=
  { fetch_html := fun url =>
      if url = base_page_url 3 then .ok "html" else .error (.err "boom")
    parse_book_list := fun _ => []
    parse_book_details := fun _ _ => .error (.err "parse") }

/-- Crawl environment where every list page fetches fine but yields zero
extractable book links. -/
def envAllPagesEmpty : CrawlEnv :=
  { fetch_html := fun _ => .ok "html"
    parse_book_list := fun _ => []
    parse_book_details := fun _ _ => .error (.err "parse") }

/-- Crawl environment where page 1 is fine with zero links and page 2
fetches a 404: the clean end-of-catalog scenario. -/
def envThen404 : CrawlEnv :=
  { fetch_html := fun url =>
      if url = base_page_url 2 then .error .notFound else .ok "html"
    parse_book_list := fun _ => []
    parse_book_details := fun _ _ => .error (.err "parse") }

/-- The identity-digest runtime used for concrete runs. -/
def rtId : Runtime := ⟨fun s => s, fun v => .ok v⟩

/-- C5: mappings agreeing on every tracked field hash identically. -/
theorem generate_hash_stable (md5hex : String → String) (d1 d2 : FieldMap)
    (h : ∀ f ∈ BOOK_FIELDS_TO_TRACK, d1.getV f = d2.getV f) :
    generate_hash md5hex d1 = generate_hash md5hex d2 := by
  unfold generate_hash jsonDumpsSorted trackedProjection
  have hmap : BOOK_FIELDS_TO_TRACK.map (fun k => (k, d1.getV k))
      = BOOK_FIELDS_TO_TRACK.map (fun k => (k, d2.getV k)) := by
    apply List.map_congr_left
    intro a ha
    rw [h a ha]
  rw [hmap]

theorem generate_hash_stable_check :
    generate_hash (fun s => s)
      [("currency", .vStr "£"), ("price_with_tax", .vInt 10), ("extra", .vInt 1)]
    = generate_hash (fun s => s)
      [("price_with_tax", .vInt 10), ("currency", .vStr "£")] := by
  apply generate_hash_stable
  intro f hf
  fin_cases hf <;> rfl

/-- C6: `detect_changes` returns exactly the tracked fields whose values
differ, and is empty precisely when no tracked field differs. -/
theorem detect_changes_precise (old_book new_book : FieldMap) :
    (∀ f o n, (f, o, n) ∈ detect_changes old_book new_book ↔
      (f ∈ BOOK_FIELDS_TO_TRACK ∧ o = old_book.getV f ∧ n = new_book.getV f
        ∧ o ≠ n))
    ∧ (detect_changes old_book new_book = [] ↔
      ∀ f ∈ BOOK_FIELDS_TO_TRACK, old_book.getV f = new_book.getV f) := by
  constructor
  · intro f o n
    unfold detect_changes
    simp only [List.mem_filterMap]
    constructor
    · rintro ⟨a, ha, hfa⟩
      by_cases hne : old_book.getV a ≠ new_book.getV a
      · rw [if_pos hne] at hfa
        injection hfa with hfa
        obtain ⟨rfl, rfl, rfl⟩ : a = f ∧ old_book.getV a = o ∧ new_book.getV a = n := by
          have h1 := congrArg Prod.fst hfa
          have h2 := congrArg (fun p => p.2.1) hfa
          have h3 := congrArg (fun p => p.2.2) hfa
          exact ⟨h1, h2, h3⟩
        exact ⟨ha, rfl, rfl, hne⟩
      · rw [if_neg hne] at hfa
        exact absurd hfa (by simp)
    · rintro ⟨hf, rfl, rfl, hne⟩
      exact ⟨f, hf, by simp [hne]⟩
  · unfold detect_changes
    rw [List.filterMap_eq_nil_iff]
    constructor
    · intro h f hf
      have := h f hf
      by_contra hne
      simp [hne] at this
    · intro h f hf
      simp [h f hf]

theorem detect_changes_precise_check :
    ("currency", Value.vStr "£", Value.vStr "$") ∈
      detect_changes [("currency", .vStr "£"), ("name", .vStr "a")]
        [("currency", .vStr "$"), ("name", .vStr "b")] :=
  ((detect_changes_precise _ _).1 "currency" (.vStr "£") (.vStr "$")).mpr
    ⟨by decide, rfl, rfl, by decide⟩

theorem foldl_pickLater_ne_none (l : List CrawlSession) (s : CrawlSession) :
    l.foldl pickLater (some s) ≠ none := by
  induction l generalizing s with
  | nil => simp
  | cons a l ih =>
    simp only [List.foldl_cons, pickLater]
    by_cases h : s.start_time < a.start_time
    · rw [if_pos h]; exact ih a
    · rw [if_neg h]; exact ih s

theorem latestFailed_eq_none_iff (l : List CrawlSession) :
    latestFailed l = none ↔ ∀ s ∈ l, s.status ≠ CrawlStatus.failed := by
  unfold latestFailed
  constructor
  · intro h s hs hfail
    have hmem : s ∈ l.filter (fun t => decide (t.status = .failed)) := by
      simp [List.mem_filter, hs, hfail]
    obtain ⟨l₁, l₂, heq⟩ := List.append_of_mem hmem
    rw [heq, List.foldl_append, List.foldl_cons] at h
    have : pickLater (l₁.foldl pickLater none) s ≠ none := by
      cases hacc : l₁.foldl pickLater none with
      | none => simp [pickLater]
      | some t => simp only [pickLater]; split <;> simp
    cases hacc : pickLater (l₁.foldl pickLater none) s with
    | none => exact absurd hacc this
    | some t =>
      rw [hacc] at h
      exact absurd h (foldl_pickLater_ne_none l₂ t)
  · intro h
    have : l.filter (fun t => decide (t.status = .failed)) = [] := by
      rw [List.filter_eq_nil_iff]
      intro s hs
      simp [h s hs]
    rw [this]
    rfl

/-- C7: `resume_latest_failed_session` returns false when no Failed session
exists or the latest one is older than 24 hours; otherwise it flips that
session to Running, clears the error message, adopts it and returns true;
`get_resume_page` is `last_completed_page + 1`, or 1 without an active
session. -/
theorem resume_correctness (mgr : SimpleCrawlManager) (db : DB) (now : Int) :
    ((∀ s ∈ db.sessions, s.status ≠ CrawlStatus.failed) →
      resume_latest_failed_session mgr db now = (false, mgr, db))
    ∧ (∀ fs, latestFailed db.sessions = some fs →
        fs.start_time < now - 86400 →
        resume_latest_failed_session mgr db now = (false, mgr, db))
    ∧ (∀ fs, latestFailed db.sessions = some fs →
        ¬ fs.start_time < now - 86400 →
        resume_latest_failed_session mgr db now =
          (true,
           ⟨some { fs with status := .running, updated_at := now,
                           error_message := none }⟩,
           db.saveSession { fs with status := .running, updated_at := now,
                                    error_message := none }))
    ∧ (∀ s, mgr.session = some s →
        get_resume_page mgr = s.last_completed_page + 1)
    ∧ (mgr.session = none → get_resume_page mgr = 1) := by
  refine ⟨?_, ?_, ?_, ?_, ?_⟩
  · intro h
    have hn : latestFailed db.sessions = none := (latestFailed_eq_none_iff _).mpr h
    unfold resume_latest_failed_session
    rw [hn]
  · intro fs hfs hold
    unfold resume_latest_failed_session
    rw [hfs]
    simp [hold]
  · intro fs hfs hrecent
    unfold resume_latest_failed_session
    rw [hfs]
    simp [hrecent]
  · intro s hs
    unfold get_resume_page
    rw [hs]
  · intro hn
    unfold get_resume_page
    rw [hn]

theorem resume_correctness_witness :
    resume_latest_failed_session ⟨none⟩
      { dbEmpty with sessions :=
          [{ session_id := 0, status := .failed, start_time := 100,
             end_time := none, last_completed_page := 5, target_pages := none,
             total_books_processed := 7, books_added := 2, books_updated := 1,
             error_message := some "boom", created_at := 100,
             updated_at := 100 }] } 200
    = (true,
       ⟨some { session_id := 0, status := .running, start_time := 100,
               end_time := none, last_completed_page := 5, target_pages := none,
               total_books_processed := 7, books_added := 2, books_updated := 1,
               error_message := none, created_at := 100, updated_at := 200 }⟩,
       { dbEmpty with sessions :=
          [{ session_id := 0, status := .running, start_time := 100,
             end_time := none, last_completed_page := 5, target_pages := none,
             total_books_processed := 7, books_added := 2, books_updated := 1,
             error_message := none, created_at := 100, updated_at := 200 }] }) := by
  have h := (resume_correctness ⟨none⟩
    { dbEmpty with sessions :=
        [{ session_id := 0, status := .failed, start_time := 100,
           end_time := none, last_completed_page := 5, target_pages := none,
           total_books_processed := 7, books_added := 2, books_updated := 1,
           error_message := some "boom", created_at := 100,
           updated_at := 100 }] } 200).2.2.1
  rw [h _ rfl (by decide)]
  rfl

/-- C8: with an active session, completing with `success = true` and a
non-empty error raises the invariant assertion instead of persisting. -/
theorem complete_session_invariant (mgr : SimpleCrawlManager) (db : DB)
    (s : CrawlSession) (e : String) (now : Int)
    (hs : mgr.session = some s) (he : e ≠ "") :
    complete_session mgr db true (some e) now =
      .error "Cannot have error message on successful completion" := by
  unfold complete_session
  rw [hs]
  have ht : truthyStr (some e) = true := by
    show (!e.isEmpty) = true
    cases hemp : e.isEmpty with
    | false => rfl
    | true => exact absurd ((String.isEmpty_iff e).mp hemp) he
  simp [ht]

theorem complete_session_invariant_witness :
    complete_session
      ⟨some { session_id := 0, status := .running, start_time := 0,
              end_time := none, last_completed_page := 0, target_pages := none,
              total_books_processed := 0, books_added := 0, books_updated := 0,
              error_message := none, created_at := 0, updated_at := 0 }⟩
      dbEmpty true (some "x") 1
    = .error "Cannot have error message on successful completion" :=
  complete_session_invariant _ dbEmpty _ "x" 1 rfl (by decide)

/-- C10: with no active session, `complete_session` returns silently for
every argument combination — including `success = true` with a non-empty
error, since the no-session guard runs before the invariant assertion —
and persists nothing. -/
theorem complete_session_no_session (mgr : SimpleCrawlManager) (db : DB)
    (success : Bool) (error : Option String) (now : Int)
    (hn : mgr.session = none) :
    complete_session mgr db success error now = .ok (mgr, db) := by
  unfold complete_session
  rw [hn]

theorem complete_session_no_session_witness :
    complete_session ⟨none⟩ dbEmpty true (some "x") 5 = .ok (⟨none⟩, dbEmpty) :=
  complete_session_no_session ⟨none⟩ dbEmpty true (some "x") 5 rfl

/-- C9 counterexample: `update_progress` sets `last_completed_page` to its
argument unconditionally, so a call with a smaller page decreases it — here
from 5 down to 3. -/
theorem update_progress_can_decrease :
    ((update_progress
        ⟨some { session_id := 0, status := .running, start_time := 0,
                end_time := none, last_completed_page := 5, target_pages := none,
                total_books_processed := 0, books_added := 0, books_updated := 0,
                error_message := none, created_at := 0, updated_at := 0 }⟩
        dbEmpty 3 0 0 0 1).1.session.map
      (fun s => s.last_completed_page)) = some 3
    ∧ ¬ (5 : Int) ≤ 3 := by
  constructor
  · rfl
  · decide

/-- C9 amended: `last_completed_page` starts at 0 at session creation;
`update_progress` sets it to its `completed_page` argument, so it never
decreases provided each call's argument is at least the current value (as
the orchestrator's strictly increasing page counter guarantees), and no
other session-manager operation changes it. -/
theorem last_completed_page_monotone :
    (∀ mgr db now limit,
      ((start_session mgr db now limit).1.session.map
        (fun s => s.last_completed_page)) = some 0)
    ∧ (∀ (mgr : SimpleCrawlManager) db s cp bop a u now,
        mgr.session = some s → s.last_completed_page ≤ cp →
        ((update_progress mgr db cp bop a u now).1.session.map
          (fun t => t.last_completed_page)) = some cp)
    ∧ (∀ (mgr : SimpleCrawlManager) db success error now mgr' db',
        complete_session mgr db success error now = .ok (mgr', db') →
        (mgr'.session.map (fun t => t.last_completed_page))
          = (mgr.session.map (fun t => t.last_completed_page)))
    ∧ (∀ mgr db now mgr' db',
        resume_latest_failed_session mgr db now = (true, mgr', db') →
        ∃ fs, latestFailed db.sessions = some fs ∧
          (mgr'.session.map (fun t => t.last_completed_page))
            = some fs.last_completed_page) := by
  refine ⟨?_, ?_, ?_, ?_⟩
  · intro mgr db now limit
    rfl
  · intro mgr db s cp bop a u now hs _
    unfold update_progress
    rw [hs]
    rfl
  · intro mgr db success error now mgr' db' h
    cases hs : mgr.session with
    | none =>
      have hr : complete_session mgr db success error now = .ok (mgr, db) := by
        unfold complete_session
        rw [hs]
      rw [hr] at h
      injection h with h
      injection h with h1 h2
      rw [← h1, hs]
    | some s =>
      by_cases hc : success && truthyStr error
      · have hr : complete_session mgr db success error now
            = .error "Cannot have error message on successful completion" := by
          unfold complete_session
          rw [hs]
          simp [hc]
        rw [hr] at h
        exact absurd h (by simp)
      · have hr : complete_session mgr db success error now
            = .ok (⟨some { s with
                            end_time := some now,
                            status := if success then .completed else .failed,
                            updated_at := now,
                            error_message :=
                              if truthyStr error then error
                              else s.error_message }⟩,
                db.saveSession { s with
                                  end_time := some now,
                                  status :=
                                    if success then .completed else .failed,
                                  updated_at := now,
                                  error_message :=
                                    if truthyStr error then error
                                    else s.error_message }) := by
          unfold complete_session
          rw [hs]
          simp [hc]
        rw [hr] at h
        injection h with h
        injection h with h1 h2
        rw [← h1]
        rfl
  · intro mgr db now mgr' db' h
    cases hfs : latestFailed db.sessions with
    | none =>
      have hr : resume_latest_failed_session mgr db now = (false, mgr, db) := by
        unfold resume_latest_failed_session
        rw [hfs]
      rw [hr] at h
      exact absurd (congrArg Prod.fst h) (by simp)
    | some fs =>
      by_cases hold : fs.start_time < now - 86400
      · have hr : resume_latest_failed_session mgr db now = (false, mgr, db) := by
          unfold resume_latest_failed_session
          rw [hfs]
          simp [hold]
        rw [hr] at h
        exact absurd (congrArg Prod.fst h) (by simp)
      · have hr : resume_latest_failed_session mgr db now =
            (true,
             ⟨some { fs with status := .running, updated_at := now,
                             error_message := none }⟩,
             db.saveSession { fs with status := .running, updated_at := now,
                                      error_message := none }) := by
          unfold resume_latest_failed_session
          rw [hfs]
          simp [hold]
        rw [hr] at h
        refine ⟨fs, rfl, ?_⟩
        injection h with h1 h2
        injection h2 with h2a h2b
        rw [← h2a]
        rfl

theorem last_completed_page_monotone_witness :
    ((update_progress
        ⟨some { session_id := 0, status := .running, start_time := 0,
                end_time := none, last_completed_page := 2, target_pages := none,
                total_books_processed := 0, books_added := 0, books_updated := 0,
                error_message := none, created_at := 0, updated_at := 0 }⟩
        dbEmpty 3 0 0 0 1).1.session.map
      (fun t => t.last_completed_page)) = some 3 :=
  last_completed_page_monotone.2.1 _ dbEmpty _ 3 0 0 0 1 rfl (by decide)

theorem find?_append_of_none {α : Type} (p : α → Bool) (l₁ l₂ : List α)
    (h : l₁.find? p = none) : (l₁ ++ l₂).find? p = l₂.find? p := by
  induction l₁ with
  | nil => rfl
  | cons a l ih =>
    cases hpa : p a with
    | true =>
      rw [List.find?_cons_of_pos _ hpa] at h
      exact absurd h (by simp)
    | false =>
      rw [List.cons_append, List.find?_cons_of_neg _ (by simp [hpa])]
      rw [List.find?_cons_of_neg _ (by simp [hpa])] at h
      exact ih h

theorem save_or_update_noop_on_hash_match (rt : Runtime) (now : Int) (db : DB)
    (book_data : FieldMap) (c t : Value) (bk : Book)
    (hc : book_data.get? "category" = some c)
    (hcat : (db.findCategory c).isSome)
    (ht : book_data.getD "title" (.vStr "") = t)
    (hbk : db.findBook t = some bk)
    (hhash : bk.metadata.content_hash = generate_hash rt.md5hex book_data) :
    save_or_update_book rt now db book_data = .ok (db, ⟨0, 0⟩) := by
  unfold save_or_update_book
  obtain ⟨cat, hcat'⟩ := Option.isSome_iff_exists.mp hcat
  simp only [hc, hcat', ht, hbk]
  rw [if_pos hhash]

theorem save_or_update_inserts_when_absent (rt : Runtime) (now : Int)
    (db : DB) (book_data : FieldMap) (c t pw pwo : Value)
    (hc : book_data.get? "category" = some c)
    (ht : book_data.getD "title" (.vStr "") = t)
    (habsent : db.findBook t = none)
    (hpw : rt.pyDecimalStr (book_data.getD "price_with_tax" (.vInt 0)) = .ok pw)
    (hpwo : rt.pyDecimalStr (book_data.getD "price_without_tax" (.vInt 0))
      = .ok pwo) :
    ∃ db1, save_or_update_book rt now db book_data = .ok (db1, ⟨1, 0⟩)
      ∧ db1.changeLogs = db.changeLogs
      ∧ (db1.findCategory c).isSome
      ∧ db1.findBook t = some (newBookRecord rt now book_data c pw pwo) := by
  have htitle : (newBookRecord rt now book_data c pw pwo).title = t := ht
  unfold save_or_update_book
  cases hcat : db.findCategory c with
  | some cat =>
    simp only [hc, hcat, ht, habsent, hpw, hpwo]
    refine ⟨_, rfl, rfl, ?_, ?_⟩
    · show (db.findCategory c).isSome
      rw [hcat]
      rfl
    · show (db.books ++ [newBookRecord rt now book_data c pw pwo]).find?
        (fun b => decide (b.title = t)) = some _
      rw [find?_append_of_none _ _ _ habsent]
      simp [List.find?, htitle]
  | none =>
    simp only [hc, hcat, ht]
    have habsent' : (DB.mk (db.categories ++ [BookCategory.mk c]) db.books
        db.changeLogs db.sessions).findBook t = none := habsent
    simp only [habsent', hpw, hpwo]
    refine ⟨_, rfl, rfl, ?_, ?_⟩
    · show ((db.categories ++ [BookCategory.mk c]).find?
        (fun x => decide (x.name = c))).isSome
      rw [find?_append_of_none _ _ _ hcat]
      simp [List.find?]
    · show (db.books ++ [newBookRecord rt now book_data c pw pwo]).find?
        (fun b => decide (b.title = t)) = some _
      rw [find?_append_of_none _ _ _ habsent]
      simp [List.find?, htitle]

/-- C2: reconciling a fresh raw record twice is idempotent: the first call
returns added=1,updated=0; the second returns added=0,updated=0 via the
content-hash short-circuit, leaves the store untouched and inserts no
ChangeLog entries. -/
theorem reconcile_idempotent (rt : Runtime) (now now2 : Int) (db : DB)
    (book_data : FieldMap) (c t pw pwo : Value)
    (ht0 : book_data.get? "title" = some t)
    (hc : book_data.get? "category" = some c)
    (habsent : db.findBook t = none)
    (hpw : rt.pyDecimalStr (book_data.getD "price_with_tax" (.vInt 0)) = .ok pw)
    (hpwo : rt.pyDecimalStr (book_data.getD "price_without_tax" (.vInt 0))
      = .ok pwo) :
    ∃ db1, save_or_update_book rt now db book_data = .ok (db1, ⟨1, 0⟩)
      ∧ save_or_update_book rt now2 db1 book_data = .ok (db1, ⟨0, 0⟩)
      ∧ db1.changeLogs = db.changeLogs := by
  have ht : book_data.getD "title" (.vStr "") = t := by
    unfold FieldMap.getD
    rw [ht0]
  obtain ⟨db1, h1, hlogs, hcat1, hfound⟩ :=
    save_or_update_inserts_when_absent rt now db book_data c t pw pwo
      hc ht habsent hpw hpwo
  refine ⟨db1, h1, ?_, hlogs⟩
  exact save_or_update_noop_on_hash_match rt now2 db1 book_data c t
    (newBookRecord rt now book_data c pw pwo) hc hcat1 ht hfound rfl

theorem reconcile_idempotent_witness :
    ∃ db1,
      save_or_update_book ⟨fun s => s, fun v => .ok v⟩ 7 dbEmpty
        [("title", .vStr "book-1"), ("category", .vStr "Fiction"),
         ("currency", .vStr "£"), ("price_with_tax", .vInt 10)]
        = .ok (db1, ⟨1, 0⟩)
      ∧ save_or_update_book ⟨fun s => s, fun v => .ok v⟩ 8 db1
          [("title", .vStr "book-1"), ("category", .vStr "Fiction"),
           ("currency", .vStr "£"), ("price_with_tax", .vInt 10)]
          = .ok (db1, ⟨0, 0⟩)
      ∧ db1.changeLogs = dbEmpty.changeLogs :=
  reconcile_idempotent ⟨fun s => s, fun v => .ok v⟩ 7 8 dbEmpty
    [("title", .vStr "book-1"), ("category", .vStr "Fiction"),
     ("currency", .vStr "£"), ("price_with_tax", .vInt 10)]
    (.vStr "Fiction") (.vStr "book-1") (.vInt 10) (.vInt 0)
    rfl rfl rfl rfl rfl

/-- C4: any persistence or lookup error raised inside the crawler/utils.py
reconciler is caught at its boundary and converted into
`added=0, updated=0, errors=1`; it never propagates to the caller. -/
theorem reconciler_boundary_catches (prims : FalliblePrims) (rt : Runtime)
    (now : Int) (db : DB) (book_data : FieldMap) (e : String) (dbe : DB)
    (h : save_or_update_book_u_body prims rt now db book_data
      = .error (e, dbe)) :
    save_or_update_book_u prims rt now db book_data = (dbe, ⟨0, 0, 1⟩) := by
  unfold save_or_update_book_u
  rw [h]

theorem reconciler_boundary_catches_witness :
    save_or_update_book_u
      ⟨fun _ _ => .ok none,
       fun d c => .ok { d with categories := d.categories ++ [c] },
       fun _ _ => .error "lookup failed: connection lost",
       fun d b => .ok { d with books := d.books ++ [b] },
       fun d _ => .ok d,
       fun d _ => .ok d⟩
      ⟨fun s => s, fun v => .ok v⟩ 0 dbEmpty
      [("title", .vStr "book-1"), ("category", .vStr "Fiction")]
    = ({ dbEmpty with categories := [BookCategory.mk (.vStr "Fiction")] },
       ⟨0, 0, 1⟩) :=
  reconciler_boundary_catches
    ⟨fun _ _ => .ok none,
     fun d c => .ok { d with categories := d.categories ++ [c] },
     fun _ _ => .error "lookup failed: connection lost",
     fun d b => .ok { d with books := d.books ++ [b] },
     fun d _ => .ok d,
     fun d _ => .ok d⟩
    ⟨fun s => s, fun v => .ok v⟩ 0 dbEmpty
    [("title", .vStr "book-1"), ("category", .vStr "Fiction")]
    "lookup failed: connection lost"
    { dbEmpty with categories := [BookCategory.mk (.vStr "Fiction")] }
    rfl

/-- C1 counterexample: in a run whose pages 1 and 2 raise non-404 errors
and whose page 3 would succeed (limit 3), the orchestrator marks the
session Failed at the very first error and re-raises — there is no
consecutive-error counter, so the claimed "two errors then success resets
the counter and the session is not failed" behavior is refuted. -/
theorem circuit_breaker_counterexample :
    (crawl_all envTwoErrorsThenSuccess rtId (some 3) false 0 dbEmpty
        10).sessionStatus = some CrawlStatus.failed
    ∧ (crawl_all envTwoErrorsThenSuccess rtId (some 3) false 0 dbEmpty
        10).isRaised = true :=
  ⟨rfl, rfl⟩

/-- C1 amended: the page loop keeps no consecutive-error counter: the
first non-404 page-level error immediately marks the active session
Failed (with the error recorded) and re-raises to the caller, so a run
can never observe two consecutive page errors followed by a success. -/
theorem first_error_fails_session (env : CrawlEnv) (rt : Runtime)
    (now : Int) (limit : Option Int) (mgr : SimpleCrawlManager) (db : DB)
    (page : Int) (fuel : Nat) (m : String) (s : CrawlSession)
    (hg : loopGuard limit page = true)
    (hs : mgr.session = some s)
    (hm : m ≠ "")
    (herr : crawl_page env rt now mgr db page = .error (.err m)) :
    crawlLoop env rt now limit mgr db page (fuel + 1) =
      .raised m
        ⟨some { s with end_time := some now, status := .failed,
                       updated_at := now, error_message := some m }⟩
        (db.saveSession { s with end_time := some now, status := .failed,
                                 updated_at := now,
                                 error_message := some m }) := by
  have ht : truthyStr (some m) = true := by
    show (!m.isEmpty) = true
    cases hemp : m.isEmpty with
    | false => rfl
    | true => exact absurd ((String.isEmpty_iff m).mp hemp) hm
  have hcomp : complete_session mgr db false (some m) now =
      .ok (⟨some { s with end_time := some now, status := .failed,
                          updated_at := now, error_message := some m }⟩,
           db.saveSession { s with end_time := some now, status := .failed,
                                   updated_at := now,
                                   error_message := some m }) := by
    unfold complete_session
    rw [hs]
    simp [ht]
  simp only [crawlLoop, hg, if_true, herr, hcomp]

theorem first_error_fails_session_witness :
    crawlLoop envTwoErrorsThenSuccess rtId 0 (some 3)
      ⟨some { session_id := 0, status := .running, start_time := 0,
              end_time := none, last_completed_page := 0, target_pages := some 3,
              total_books_processed := 0, books_added := 0, books_updated := 0,
              error_message := none, created_at := 0, updated_at := 0 }⟩
      dbEmpty 1 10 =
      .raised "boom"
        ⟨some { session_id := 0, status := .failed, start_time := 0,
                end_time := some 0, last_completed_page := 0,
                target_pages := some 3, total_books_processed := 0,
                books_added := 0, books_updated := 0,
                error_message := some "boom", created_at := 0,
                updated_at := 0 }⟩
        (dbEmpty.saveSession
          { session_id := 0, status := .failed, start_time := 0,
            end_time := some 0, last_completed_page := 0,
            target_pages := some 3, total_books_processed := 0,
            books_added := 0, books_updated := 0,
            error_message := some "boom", created_at := 0,
            updated_at := 0 }) :=
  first_error_fails_session envTwoErrorsThenSuccess rtId 0 (some 3) _ dbEmpty
    1 9 "boom" _ rfl rfl (by decide) rfl

/-- C3 counterexample: with every list page fetching fine but yielding
zero extractable book links and limit 2, the loop does not break at
page 1: it also crawls page 2, finishing with `last_completed_page = 2`
and `pages_processed = 2`, refuting "zero extractable links → the loop
breaks". -/
theorem end_of_catalog_counterexample :
    (crawl_all envAllPagesEmpty rtId (some 2) false 0 dbEmpty
        5).lastCompletedPage = some 2
    ∧ (crawl_all envAllPagesEmpty rtId (some 2) false 0 dbEmpty
        5).pagesProcessed = some 2
    ∧ ¬ (crawl_all envAllPagesEmpty rtId (some 2) false 0 dbEmpty
        5).lastCompletedPage = some 1 :=
  ⟨rfl, rfl, by decide⟩

/-- C3 amended: a 404 on the list-page fetch breaks the loop cleanly
without touching the session, and the post-loop completion then marks the
session Completed; a page with zero extractable links does NOT break —
it completes normally with zero books (progress recorded) and the loop
moves on to the next page.  Concretely, a run whose page 1 is empty and
whose page 2 is a 404 ends with a Completed session and no exception. -/
theorem end_of_catalog_termination :
    (∀ (env : CrawlEnv) (rt : Runtime) (now : Int) (limit : Option Int)
        (mgr : SimpleCrawlManager) (db : DB) (page : Int) (fuel : Nat),
      loopGuard limit page = true →
      env.fetch_html (base_page_url page) = .error .notFound →
      crawlLoop env rt now limit mgr db page (fuel + 1) = .exited mgr db page)
    ∧ (∀ (env : CrawlEnv) (rt : Runtime) (now : Int) (limit : Option Int)
        (mgr : SimpleCrawlManager) (db : DB) (page : Int) (fuel : Nat)
        (html : String),
      loopGuard limit page = true →
      env.fetch_html (base_page_url page) = .ok html →
      env.parse_book_list html = [] →
      crawlLoop env rt now limit mgr db page (fuel + 1) =
        crawlLoop env rt now limit (update_progress mgr db page 0 0 0 now).1
          (update_progress mgr db page 0 0 0 now).2 (page + 1) fuel)
    ∧ (∀ (mgr : SimpleCrawlManager) (db : DB) (s : CrawlSession) (now : Int),
      mgr.session = some s →
      complete_session mgr db true none now =
        .ok (⟨some { s with end_time := some now, status := .completed,
                            updated_at := now }⟩,
             db.saveSession { s with end_time := some now,
                                     status := .completed,
                                     updated_at := now }))
    ∧ (crawl_all envThen404 rtId none false 0 dbEmpty 5).sessionStatus
        = some CrawlStatus.completed
    ∧ (crawl_all envThen404 rtId none false 0 dbEmpty 5).isRaised = false := by
  refine ⟨?_, ?_, ?_, rfl, rfl⟩
  · intro env rt now limit mgr db page fuel hg hfetch
    have hpage : crawl_page env rt now mgr db page = .error .notFound := by
      unfold crawl_page
      rw [hfetch]
    simp only [crawlLoop, hg, if_true, hpage]
  · intro env rt now limit mgr db page fuel html hg hfetch hempty
    have hpage : crawl_page env rt now mgr db page =
        .ok ((update_progress mgr db page 0 0 0 now).1,
             (update_progress mgr db page 0 0 0 now).2,
             ⟨page, 0, 0, 0, "success"⟩) := by
      unfold crawl_page
      rw [hfetch]
      simp only [hempty, List.foldl_nil]
    simp only [crawlLoop, hg, if_true, hpage]
  · intro mgr db s now hs
    unfold complete_session
    rw [hs]
    simp [truthyStr]

theorem end_of_catalog_termination_witness :
    crawlLoop envThen404 rtId 0 (some 7)
      ⟨some { session_id := 0, status := .running, start_time := 0,
              end_time := none, last_completed_page := 1, target_pages := some 7,
              total_books_processed := 0, books_added := 0, books_updated := 0,
              error_message := none, created_at := 0, updated_at := 0 }⟩
      dbEmpty 2 4 =
      .exited
        ⟨some { session_id := 0, status := .running, start_time := 0,
                end_time := none, last_completed_page := 1,
                target_pages := some 7, total_books_processed := 0,
                books_added := 0, books_updated := 0, error_message := none,
                created_at := 0, updated_at := 0 }⟩
        dbEmpty 2 :=
  end_of_catalog_termination.1 envThen404 rtId 0 (some 7) _ dbEmpty 2 3
    rfl rfl

end BookCrawler
